import Mathlib

/-!
Verification development for the USB_Changer firmware core (src/main.c).

The C source is shallowly embedded: each component of the firmware
(persistence facade, button classifier, relay hysteresis engine, status-LED
renderer, setup state machine, USB port-select machine) is translated into an
executable Lean function over explicit state records.  Machine integers are
modelled as Nat (unsigned) or Int (signed) with explicit reductions modulo
2^32 (uint32_t) and 2^16 (uint16_t) where the C code can overflow or wrap.
SYSTIMER_GetTime() is modelled by passing the current microsecond clock value
(already the uint32 reading) into each step function.
-/

/-! ## Constants from main.c (the #define block) -/

def M32 : Nat := 2 ^ 32
def M16 : Nat := 2 ^ 16

def USB_STORE_STATE_EEPROM_DELAY : Nat := 5000
def BTN_STD_PRESS_DURATION : Nat := 60
def BTN_LONG_PRESS_DURATION : Nat := 1000
def BTN_LONGEST_PRESS_DURATION : Nat := 4000
def ADC_THRESHOLD_MAX : Int := 4095
def ADC_THRESHOLD_INCREMENT : Int := ADC_THRESHOLD_MAX / 35
def ADC_TH_UPPER_DEFAULT : Int := 3510
def ADC_TH_LOWER_DEFAULT : Int := 585
def RELAY_LATCHTIME_MAX : Int := 60000
def RELAY_LATCHTIME_INCREMENT : Int := 250
def RELAY_LATCHTIME_DEFAULT : Int := 500
def LED_PULSE_SHORT : Nat := 200
def LED_PULSE_LONG : Nat := 1100
def TIMESTAMP_DEACTIVATED : Nat := M32 - 1

/-- Wrap-safe uint32 elapsed time in microseconds, the C expression
SYSTIMER_GetTime() - timestamp evaluated in uint32_t arithmetic
(timestamp is assumed already reduced, i.e. < 2^32). -/
def elapsed_us (now ts : Nat) : Nat := (now % M32 + M32 - ts) % M32

/-- Elapsed milliseconds, the ubiquitous (SYSTIMER_GetTime() - ts) / 1000. -/
def elapsed_ms (now ts : Nat) : Nat := elapsed_us now ts / 1000

/-! ## Enumerations from main.c -/

inductive USB_states
  | USB_1_active
  | USB_2_active
  | USB_inactive
deriving DecidableEq, Repr

inductive relay_states
  | RELAY_HIGH
  | RELAY_LOW
deriving DecidableEq, Repr

inductive setup_states
  | SETUP_IDLE
  | SETUP_UPPER_TH
  | SETUP_LOWER_TH
  | SETUP_TIME_TH
deriving DecidableEq, Repr

inductive LED_patterns
  | LED_OFF
  | LED_ON
  | LED_NUMBER
  | LED_FADE_DOWN
  | LED_FADE_UP
  | LED_MATCH_RELAY_STATE
deriving DecidableEq, Repr

inductive LED_pattern_modes
  | LED_PATTERN_CONTINUOUS
  | LED_PATTERN_SINGLE
deriving DecidableEq, Repr

inductive button_press_states
  | BTNPRESS_NOT
  | BTNPRESS_STD
  | BTNPRESS_LONG
  | BTNPRESS_LONGEST
deriving DecidableEq, Repr

/-- The four E_EEPROM_XMC1 blocks of the DAVE configuration. -/
inductive EepromBlock
  | EEPROM_UPPER_TH
  | EEPROM_LOWER_TH
  | EEPROM_LATCHTIME
  | EEPROM_USB_STATE
deriving DecidableEq, Repr

open USB_states relay_states setup_states LED_patterns LED_pattern_modes
  button_press_states EepromBlock

/-! ## Persistence facade: write_eeprom and read_eeprom_setup (main.c 273-381)

write_eeprom extracts `size` little-endian bytes from the int32_t `value`
((uint8_t)(value >> (i*8)) for byte i); on two's-complement hardware this is
byte i of the 32-bit pattern value mod 2^32.  read_eeprom_setup rebuilds
b0 + (b1 << 8) + (b2 << 16) + (b3 << 24) in 32-bit int arithmetic and stores
it into an int32_t, so a pattern with the top bit set comes back negative. -/

def write_eeprom_buffer (value : Int) (size : Nat) : List Nat :=
  (List.range size).map fun i => (value % (M32 : Int)).toNat / 256 ^ i % 256

/-- The value an EEPROM block's four bytes decode to in read_eeprom_setup. -/
def eeprom_read_value (b : List Nat) : Int :=
  let n : Nat := b.getD 0 0 + b.getD 1 0 * 2 ^ 8 + b.getD 2 0 * 2 ^ 16 + b.getD 3 0 * 2 ^ 24
  if n < 2 ^ 31 then (n : Int) else (n : Int) - (M32 : Int)

/-- Range check for the upper threshold in read_eeprom_setup (main.c 291-305). -/
def restore_upper (eeprom_upper : Int) : Int :=
  if eeprom_upper < 0 ∨ eeprom_upper > ADC_THRESHOLD_MAX then ADC_TH_UPPER_DEFAULT
  else eeprom_upper

/-- Range check for the lower threshold in read_eeprom_setup (main.c 307-321). -/
def restore_lower (eeprom_lower : Int) : Int :=
  if eeprom_lower < 0 ∨ eeprom_lower > ADC_THRESHOLD_MAX then ADC_TH_LOWER_DEFAULT
  else eeprom_lower

/-- Range check for the latch time in read_eeprom_setup (main.c 323-336).
The source compares eeprom_latchtime against ADC_THRESHOLD_MAX (4095), not
against RELAY_LATCHTIME_MAX (60000). -/
def restore_latchtime (eeprom_latchtime : Int) : Int :=
  if eeprom_latchtime < 0 ∨ eeprom_latchtime > ADC_THRESHOLD_MAX then RELAY_LATCHTIME_DEFAULT
  else eeprom_latchtime

/-- Range check for the stored port in read_eeprom_setup (main.c 338-341):
valid raw values are 0..2 ((USB_states)eeprom_usb_state), everything else
resets to USB_1_active. -/
def restore_usb (eeprom_usb_state : Int) : USB_states :=
  if eeprom_usb_state < 0 ∨ eeprom_usb_state > 2 then USB_1_active
  else if eeprom_usb_state = 0 then USB_1_active
  else if eeprom_usb_state = 1 then USB_2_active
  else USB_inactive

/-! ## Input classifier: manage_buttons (main.c 386-450), one channel

Each loop pass: if the channel's timestamp is 0 and the line is active, the
current time is latched as press start; if a press is ongoing and the line is
inactive, the duration (uint16_t, in ms) classifies the press; if a press is
ongoing, not deactivated, and has lasted strictly more than
BTN_LONGEST_PRESS_DURATION ms, the timestamp is set to TIMESTAMP_DEACTIVATED
and BTNPRESS_LONGEST is raised while the button is still held.  The main loop
resets the pending event to BTNPRESS_NOT at the end of every pass, so each
pass enters manage_buttons with prev = BTNPRESS_NOT. -/

def btnStep (now : Nat) (pressed : Bool) (ts : Nat) (prev : button_press_states) :
    Nat × button_press_states :=
  let ts1 := if ts = 0 ∧ pressed then now % M32 else ts
  if ts1 ≠ 0 ∧ ¬pressed then
    let dur := elapsed_ms now ts1 % M16
    let ev :=
      if dur ≥ BTN_LONGEST_PRESS_DURATION then BTNPRESS_NOT
      else if dur ≥ BTN_LONG_PRESS_DURATION then BTNPRESS_LONG
      else if dur ≥ BTN_STD_PRESS_DURATION then BTNPRESS_STD
      else prev
    (0, ev)
  else if ts1 ≠ 0 ∧ ts1 ≠ TIMESTAMP_DEACTIVATED ∧
      elapsed_ms now ts1 > BTN_LONGEST_PRESS_DURATION then
    (TIMESTAMP_DEACTIVATED, BTNPRESS_LONGEST)
  else (ts1, prev)

/-- Fold manage_buttons over a list of polls (time, line active?), collecting
every pending event a pass raises.  Each pass starts from BTNPRESS_NOT,
mirroring the reset at the end of the main loop. -/
def runPolls : Nat → List button_press_states → List (Nat × Bool) →
    Nat × List button_press_states
  | ts, evs, [] => (ts, evs)
  | ts, evs, (now, p) :: rest =>
    let r := btnStep now p ts BTNPRESS_NOT
    runPolls r.1 (evs ++ if r.2 = BTNPRESS_NOT then [] else [r.2]) rest

/-- A single physical press of d milliseconds starting at clock t0, sampled on
1 ms polls: the line reads active on polls 0..d-1 and inactive on poll d. -/
def pressPolls (t0 d : Nat) : List (Nat × Bool) :=
  (List.range (d + 1)).map fun k => (t0 + 1000 * k, decide (k < d))

/-- The events one press of d milliseconds produces on the channel. -/
def pressEvents (t0 d : Nat) : List button_press_states :=
  (runPolls 0 [] (pressPolls t0 d)).2

/-! ## Relay hysteresis engine (main.c 561-608)

The relay section of the main loop, projected onto the variables it reads and
writes: relay_state and the two exceed timestamps.  The comparisons follow the
C types: ADC_val_current is uint32_t compared against the int32_t thresholds
(which C converts to uint32_t), and the exceed duration is a uint16_t compared
against the int32_t latch time (both promoted to int). -/

/-- C conversion of an int32_t value to uint32_t, as used when main.c
compares ADC_val_current (uint32_t) with a threshold (int32_t). -/
def u32ofInt (x : Int) : Nat := (x % (M32 : Int)).toNat

structure RelayConfig where
  ADC_upper_threshold : Int
  ADC_lower_threshold : Int
  relay_threshold_latchtime : Int
deriving DecidableEq, Repr

structure RelayState where
  relay_state : relay_states
  ADC_val_upper_thres_exceed_timestamp : Nat
  ADC_val_lower_thres_exceed_timestamp : Nat
deriving DecidableEq, Repr

/-- Initial relay state from the globals of main.c. -/
def relayInit : RelayState :=
  { relay_state := RELAY_LOW
    ADC_val_upper_thres_exceed_timestamp := 0
    ADC_val_lower_thres_exceed_timestamp := 0 }

/-- One pass of the relay section of the main loop. -/
def relayStep (cfg : RelayConfig) (now ADC_val_current : Nat) (s : RelayState) :
    RelayState :=
  match s.relay_state with
  | RELAY_LOW =>
    let uts :=
      if s.ADC_val_upper_thres_exceed_timestamp = 0 ∧
          ADC_val_current > u32ofInt cfg.ADC_upper_threshold then now % M32
      else if s.ADC_val_upper_thres_exceed_timestamp ≠ 0 ∧
          ADC_val_current < u32ofInt cfg.ADC_upper_threshold then 0
      else s.ADC_val_upper_thres_exceed_timestamp
    if uts ≠ 0 ∧ ((elapsed_ms now uts % M16 : Nat) : Int) > cfg.relay_threshold_latchtime then
      { relay_state := RELAY_HIGH
        ADC_val_upper_thres_exceed_timestamp := 0
        ADC_val_lower_thres_exceed_timestamp := s.ADC_val_lower_thres_exceed_timestamp }
    else
      { relay_state := RELAY_LOW
        ADC_val_upper_thres_exceed_timestamp := uts
        ADC_val_lower_thres_exceed_timestamp := s.ADC_val_lower_thres_exceed_timestamp }
  | RELAY_HIGH =>
    let lts :=
      if s.ADC_val_lower_thres_exceed_timestamp = 0 ∧
          ADC_val_current < u32ofInt cfg.ADC_lower_threshold then now % M32
      else if s.ADC_val_lower_thres_exceed_timestamp ≠ 0 ∧
          ADC_val_current > u32ofInt cfg.ADC_lower_threshold then 0
      else s.ADC_val_lower_thres_exceed_timestamp
    if lts ≠ 0 ∧ ((elapsed_ms now lts % M16 : Nat) : Int) > cfg.relay_threshold_latchtime then
      { relay_state := RELAY_LOW
        ADC_val_upper_thres_exceed_timestamp := s.ADC_val_upper_thres_exceed_timestamp
        ADC_val_lower_thres_exceed_timestamp := 0 }
    else
      { relay_state := RELAY_HIGH
        ADC_val_upper_thres_exceed_timestamp := s.ADC_val_upper_thres_exceed_timestamp
        ADC_val_lower_thres_exceed_timestamp := lts }

/-- Fold the relay section over a trace of polls (time, ADC sample). -/
def relayRun (cfg : RelayConfig) (s : RelayState) (tr : List (Nat × Nat)) : RelayState :=
  tr.foldl (fun s p => relayStep cfg p.1 p.2 s) s

/-- Boolean check that a trace's poll times are strictly increasing. -/
def timesSorted : List (Nat × Nat) → Bool
  | p :: q :: r => decide (p.1 < q.1) && timesSorted (q :: r)
  | _ => true

/-- Boolean check that a trace's poll times fit in uint32_t. -/
def timesBounded (tr : List (Nat × Nat)) : Bool :=
  tr.all fun p => decide (p.1 < M32)

/-- Boolean check that every sample of a trace inside the time window
[lo, hi] is at least th. -/
def allInWindowGE (tr : List (Nat × Nat)) (lo hi th : Nat) : Bool :=
  tr.all fun p => !(decide (lo ≤ p.1) && decide (p.1 ≤ hi)) || decide (th ≤ p.2)

/-- The relay dwell property exactly as the spec states it for the low-to-high
transition: the transition happens only if the ADC reading stayed continuously
STRICTLY ABOVE the upper threshold for the whole latch window. -/
def relayDwellClaim : Prop :=
  ∀ (cfg : RelayConfig) (tr : List (Nat × Nat)) (now adc : Nat),
    0 ≤ cfg.relay_threshold_latchtime →
    (relayRun cfg relayInit tr).relay_state = RELAY_LOW →
    (relayStep cfg now adc (relayRun cfg relayInit tr)).relay_state = RELAY_HIGH →
    ∀ p ∈ tr ++ [(now, adc)],
      now - 1000 * cfg.relay_threshold_latchtime.toNat ≤ p.1 → p.1 ≤ now →
        p.2 > u32ofInt cfg.ADC_upper_threshold

/-! ## Setup / configuration state machine (main.c 613-764)

The setup section of the main loop, projected onto the variables it reads and
writes: the setup state, the three configuration values, the LED pattern
request globals and the EEPROM writes it issues.  write_eeprom calls are
logged as (block, value) pairs. -/

structure SetupState where
  setup_state : setup_states
  ADC_upper_threshold : Int
  ADC_lower_threshold : Int
  relay_threshold_latchtime : Int
  led_status_pattern : LED_patterns
  led_pattern_mode : LED_pattern_modes
  led_status_pattern_after_single : LED_patterns
  led_number_continuous : Nat
  led_number_single : Nat
  writes : List (EepromBlock × Int)
deriving DecidableEq, Repr

/-- One pass of the setup section of the main loop, consuming the up and down
button events (the usb event is never read here). -/
def setupStep (buttonpress_up buttonpress_down : button_press_states)
    (ADC_val_current : Nat) (s : SetupState) : SetupState :=
  match s.setup_state with
  | SETUP_IDLE =>
    if buttonpress_up = BTNPRESS_LONG ∨ buttonpress_down = BTNPRESS_LONG then
      { s with setup_state := SETUP_TIME_TH, led_status_pattern := LED_NUMBER
               led_number_continuous := 1 }
    else if buttonpress_up = BTNPRESS_STD then
      { s with setup_state := SETUP_UPPER_TH, led_status_pattern := LED_FADE_UP }
    else if buttonpress_down = BTNPRESS_STD then
      { s with setup_state := SETUP_LOWER_TH, led_status_pattern := LED_FADE_DOWN }
    else s
  | SETUP_UPPER_TH =>
    if buttonpress_up = BTNPRESS_LONG ∨ buttonpress_down = BTNPRESS_LONG then
      { s with writes := s.writes ++ [(EEPROM_UPPER_TH, s.ADC_upper_threshold)]
               setup_state := SETUP_IDLE, led_status_pattern := LED_MATCH_RELAY_STATE }
    else if buttonpress_up = BTNPRESS_STD then
      let v := s.ADC_upper_threshold + ADC_THRESHOLD_INCREMENT
      if v > ADC_THRESHOLD_MAX then
        { s with ADC_upper_threshold := ADC_THRESHOLD_MAX, led_number_single := 2
                 led_status_pattern := LED_NUMBER, led_pattern_mode := LED_PATTERN_SINGLE
                 led_status_pattern_after_single := LED_FADE_UP }
      else { s with ADC_upper_threshold := v }
    else if buttonpress_down = BTNPRESS_STD then
      let v := s.ADC_upper_threshold - ADC_THRESHOLD_INCREMENT
      if v ≤ 0 then
        { s with ADC_upper_threshold := 0, led_number_single := 2
                 led_status_pattern := LED_NUMBER, led_pattern_mode := LED_PATTERN_SINGLE
                 led_status_pattern_after_single := LED_FADE_UP }
      else { s with ADC_upper_threshold := v }
    else if buttonpress_up = BTNPRESS_LONGEST then
      { s with ADC_upper_threshold := (ADC_val_current : Int)
               writes := s.writes ++ [(EEPROM_UPPER_TH, (ADC_val_current : Int))]
               setup_state := SETUP_IDLE, led_number_single := 3
               led_status_pattern := LED_NUMBER, led_pattern_mode := LED_PATTERN_SINGLE
               led_status_pattern_after_single := LED_MATCH_RELAY_STATE }
    else s
  | SETUP_LOWER_TH =>
    if buttonpress_up = BTNPRESS_LONG ∨ buttonpress_down = BTNPRESS_LONG then
      { s with writes := s.writes ++ [(EEPROM_LOWER_TH, s.ADC_lower_threshold)]
               setup_state := SETUP_IDLE, led_status_pattern := LED_MATCH_RELAY_STATE }
    else if buttonpress_up = BTNPRESS_STD then
      let v := s.ADC_lower_threshold + ADC_THRESHOLD_INCREMENT
      if v > ADC_THRESHOLD_MAX then
        { s with ADC_lower_threshold := ADC_THRESHOLD_MAX, led_number_single := 2
                 led_status_pattern := LED_NUMBER, led_pattern_mode := LED_PATTERN_SINGLE
                 led_status_pattern_after_single := LED_FADE_DOWN }
      else { s with ADC_lower_threshold := v }
    else if buttonpress_down = BTNPRESS_STD then
      let v := s.ADC_lower_threshold - ADC_THRESHOLD_INCREMENT
      if v ≤ 0 then
        { s with ADC_lower_threshold := 0, led_number_single := 2
                 led_status_pattern := LED_NUMBER, led_pattern_mode := LED_PATTERN_SINGLE
                 led_status_pattern_after_single := LED_FADE_DOWN }
      else { s with ADC_lower_threshold := v }
    else if buttonpress_down = BTNPRESS_LONGEST then
      { s with ADC_lower_threshold := (ADC_val_current : Int)
               writes := s.writes ++ [(EEPROM_LOWER_TH, (ADC_val_current : Int))]
               setup_state := SETUP_IDLE, led_number_single := 3
               led_status_pattern := LED_NUMBER, led_pattern_mode := LED_PATTERN_SINGLE
               led_status_pattern_after_single := LED_MATCH_RELAY_STATE }
    else s
  | SETUP_TIME_TH =>
    if buttonpress_up = BTNPRESS_LONG ∨ buttonpress_down = BTNPRESS_LONG then
      { s with writes := s.writes ++ [(EEPROM_LATCHTIME, s.relay_threshold_latchtime)]
               setup_state := SETUP_IDLE, led_status_pattern := LED_MATCH_RELAY_STATE }
    else if buttonpress_up = BTNPRESS_STD then
      let v := s.relay_threshold_latchtime + RELAY_LATCHTIME_INCREMENT
      if v > RELAY_LATCHTIME_MAX then
        { s with relay_threshold_latchtime := RELAY_LATCHTIME_MAX, led_number_single := 2
                 led_status_pattern := LED_NUMBER, led_pattern_mode := LED_PATTERN_SINGLE
                 led_status_pattern_after_single := LED_NUMBER }
      else { s with relay_threshold_latchtime := v }
    else if buttonpress_down = BTNPRESS_STD then
      let v := s.relay_threshold_latchtime - RELAY_LATCHTIME_INCREMENT
      if v ≤ 0 then
        { s with relay_threshold_latchtime := 0, led_number_single := 2
                 led_status_pattern := LED_NUMBER, led_pattern_mode := LED_PATTERN_SINGLE
                 led_status_pattern_after_single := LED_NUMBER }
      else { s with relay_threshold_latchtime := v }
    else s

/-! ## Status LED renderer: manage_status_led (main.c 105-268)

The renderer's globals and its function-local static variables form LedState.
PWM_FULL_ON and PWM_FULL_OFF are duty-cycle constants of the generated PWM
driver (numerically lower means brighter); they are passed as parameters,
and the last duty cycle written by PWM_CCU4_SetDutyCycle is recorded in the
duty field.  relay_in is the DIGITAL_IO_GetInput(&IO_RELAY) reading used by
reset_status_led_to_relay_state. -/

structure LedState where
  led_status_pattern : LED_patterns
  led_status_pattern_last : LED_patterns
  led_pattern_mode : LED_pattern_modes
  led_status_pattern_after_single : LED_patterns
  led_number_continuous : Nat
  led_number_single : Nat
  led_fadetime : Nat
  led_fadesteps : Nat
  led_pattern_state : Nat
  led_pattern_state_timestamp : Nat
  led_pattern_state_length : Nat
  fade_duty_step : Nat
  duty : Nat
deriving DecidableEq, Repr

/-- reset_status_led_to_relay_state (main.c 105-115). -/
def reset_status_led_to_relay_state (pwmOn pwmOff : Nat) (relay_in : Bool)
    (s : LedState) : LedState :=
  if relay_in = false then { s with led_status_pattern := LED_OFF, duty := pwmOff }
  else { s with led_status_pattern := LED_ON, duty := pwmOn }

/-- One call of manage_status_led at clock value now. -/
def manage_status_led (pwmOn pwmOff : Nat) (relay_in : Bool) (now : Nat)
    (s0 : LedState) : LedState :=
  -- Check target pattern and initiate
  let s :=
    if s0.led_status_pattern ≠ s0.led_status_pattern_last then
      let s1 :=
        match s0.led_status_pattern with
        | LED_OFF => { s0 with duty := pwmOff }
        | LED_ON => { s0 with duty := pwmOn }
        | LED_NUMBER =>
          if (s0.led_number_continuous ≥ 1 ∧ s0.led_pattern_mode = LED_PATTERN_CONTINUOUS) ∨
              (s0.led_number_single ≥ 1 ∧ s0.led_pattern_mode = LED_PATTERN_SINGLE) then
            { s0 with led_pattern_state_timestamp := now % M32
                      led_pattern_state_length := LED_PULSE_SHORT
                      duty := pwmOff, led_pattern_state := 0 }
          else s0
        | LED_FADE_DOWN =>
          if s0.led_fadetime > 0 then
            { s0 with led_pattern_state_timestamp := now % M32
                      led_pattern_state_length := s0.led_fadetime / s0.led_fadesteps % M16
                      fade_duty_step := pwmOff / s0.led_fadesteps % M16
                      duty := pwmOn, led_pattern_state := 0 }
          else s0
        | LED_FADE_UP =>
          if s0.led_fadetime > 0 then
            { s0 with led_pattern_state_timestamp := now % M32
                      led_pattern_state_length := s0.led_fadetime / s0.led_fadesteps % M16
                      fade_duty_step := pwmOff / s0.led_fadesteps % M16
                      duty := pwmOff, led_pattern_state := 0 }
          else s0
        | LED_MATCH_RELAY_STATE => reset_status_led_to_relay_state pwmOn pwmOff relay_in s0
      { s1 with led_status_pattern_last := s0.led_status_pattern }
    else s0
  -- Handle LED_NUMBER pattern
  if s.led_status_pattern = LED_NUMBER then
    if elapsed_ms now s.led_pattern_state_timestamp ≥ s.led_pattern_state_length then
      let st := (s.led_pattern_state + 1) % M16
      let led_number :=
        if s.led_pattern_mode = LED_PATTERN_CONTINUOUS then s.led_number_continuous
        else s.led_number_single
      let duty := if st % 2 = 1 then pwmOn else pwmOff
      let len :=
        if st = led_number * 2 ∧ s.led_pattern_mode = LED_PATTERN_CONTINUOUS then LED_PULSE_LONG
        else LED_PULSE_SHORT
      let base := { s with led_pattern_state := st, duty := duty
                           led_pattern_state_length := len
                           led_pattern_state_timestamp := now % M32 }
      if st > led_number * 2 then
        if s.led_pattern_mode = LED_PATTERN_CONTINUOUS then
          { base with led_pattern_state := 1 }
        else
          { base with led_pattern_mode := LED_PATTERN_CONTINUOUS
                      led_status_pattern := s.led_status_pattern_after_single }
      else base
    else s
  -- Handle LED_FADE_DOWN pattern
  else if s.led_status_pattern = LED_FADE_DOWN then
    if elapsed_ms now s.led_pattern_state_timestamp ≥ s.led_pattern_state_length then
      let duty := s.led_pattern_state * s.fade_duty_step + pwmOn
      let st := (s.led_pattern_state + 1) % M16
      let len :=
        if st = s.led_fadesteps - 1 then (s.led_pattern_state_length + 400) % M16
        else s.led_pattern_state_length
      let base := { s with led_pattern_state := st, duty := duty
                           led_pattern_state_length := len
                           led_pattern_state_timestamp := now % M32 }
      if st ≥ s.led_fadesteps then
        if s.led_pattern_mode = LED_PATTERN_CONTINUOUS then
          { base with led_pattern_state_length := (len + M16 - 400) % M16
                      led_pattern_state := 0 }
        else
          { base with led_pattern_mode := LED_PATTERN_CONTINUOUS
                      led_status_pattern := s.led_status_pattern_after_single }
      else base
    else s
  -- Handle LED_FADE_UP pattern
  else if s.led_status_pattern = LED_FADE_UP then
    if elapsed_ms now s.led_pattern_state_timestamp ≥ s.led_pattern_state_length then
      let duty := pwmOff - s.led_pattern_state * s.fade_duty_step
      let st := (s.led_pattern_state + 1) % M16
      let len :=
        if st = s.led_fadesteps - 1 then (s.led_pattern_state_length + 400) % M16
        else s.led_pattern_state_length
      let base := { s with led_pattern_state := st, duty := duty
                           led_pattern_state_length := len
                           led_pattern_state_timestamp := now % M32 }
      if st ≥ s.led_fadesteps then
        if s.led_pattern_mode = LED_PATTERN_CONTINUOUS then
          { base with led_pattern_state_length := (len + M16 - 400) % M16
                      led_pattern_state := 0 }
        else
          { base with led_pattern_mode := LED_PATTERN_CONTINUOUS
                      led_status_pattern := s.led_status_pattern_after_single }
      else base
    else s
  else s

/-- The pulse count manage_status_led uses for LED_NUMBER in the given mode. -/
def ledNumberOf (s : LedState) : Nat :=
  if s.led_pattern_mode = LED_PATTERN_CONTINUOUS then s.led_number_continuous
  else s.led_number_single

/-! ## USB port-select machine with delayed commit (main.c 455-471, 525-557)

switchUSB drives five digital outputs as a function of the target state (it
sets nothing for USB_inactive); the save check at the top of the USB section
writes the state to EEPROM once usb_changed_timestamp is nonzero and more
than USB_STORE_STATE_EEPROM_DELAY ms old. -/

structure PortOutputs where
  IO_USBPWR_1 : Bool
  IO_USBPWR_2 : Bool
  IO_USB_SI : Bool
  IO_LED_USB1 : Bool
  IO_LED_USB2 : Bool
deriving DecidableEq, Repr

/-- switchUSB (main.c 455-471): the output levels driven for each state. -/
def switchUSB : USB_states → Option PortOutputs
  | USB_1_active =>
    some { IO_USBPWR_1 := true, IO_USBPWR_2 := false, IO_USB_SI := false
           IO_LED_USB1 := false, IO_LED_USB2 := true }
  | USB_2_active =>
    some { IO_USBPWR_1 := false, IO_USBPWR_2 := true, IO_USB_SI := true
           IO_LED_USB1 := true, IO_LED_USB2 := false }
  | USB_inactive => none

/-- One save-check pass (main.c 525-529) on usb_changed_timestamp: returns the
new timestamp and how many EEPROM writes of the USB block the pass issued
(USB_STORE_STATE_EEPROM is 1 in the source). -/
def usbSaveCheck (now ts : Nat) : Nat × Nat :=
  if ts ≠ 0 ∧ elapsed_ms now ts > USB_STORE_STATE_EEPROM_DELAY then (0, 1)
  else (ts, 0)

/-- One pass over the commit-delay state: the save check runs first (in loop
order), then a toggle this pass restarts usb_changed_timestamp.  Returns the
new timestamp and the number of writes issued. -/
def commitStep (p : Nat × Bool) (ts : Nat) : Nat × Nat :=
  let r := usbSaveCheck p.1 ts
  (if p.2 then p.1 % M32 else r.1, r.2)

/-- Run commitStep over a trace of passes (time, toggled this pass?),
returning the final timestamp and the total number of writes issued. -/
def commitRun : List (Nat × Bool) → Nat → Nat × Nat
  | [], ts => (ts, 0)
  | p :: l, ts =>
    let r := commitStep p ts
    let rest := commitRun l r.1
    (rest.1, r.2 + rest.2)

/-- The commit-delay property as the claim states it, specialised to the
simplest schedule: a pass that toggles the port at clock t, followed by one
quiet pass more than USB_STORE_STATE_EEPROM_DELAY ms later, yields exactly
one EEPROM write of the port state. -/
def usbCommitClaim : Prop :=
  ∀ t later : Nat, later < M32 →
    elapsed_ms later (t % M32) > USB_STORE_STATE_EEPROM_DELAY →
    (commitRun [(t, true), (later, false)] 0).2 = 1

/-! ## One main-loop pass (main.c 513-770)

mainPass chains, in source order, the parts of the loop body that read or
write USB_state, the button events, the relay variables and the setup
variables: the USB save check, the USB state machine, the relay section,
and the setup section.  (manage_status_led renders from the LED request
globals only; it reads and writes none of the fields below, so it commutes
with this projection and is modelled separately above.)  The relay section
reads the thresholds and the latch time from the same globals the setup
section edits, so the relay config is taken from the SetupState fields. -/

structure MainState where
  USB_state : USB_states
  usb_changed_timestamp : Nat
  usb_writes : Nat
  port_outputs : Option PortOutputs
  buttonpress_usb : button_press_states
  relay : RelayState
  setup : SetupState
deriving DecidableEq, Repr

/-- The USB state machine switch (main.c 531-557). -/
def usbMachineStep (now : Nat) (s : MainState) : MainState :=
  match s.USB_state with
  | USB_1_active =>
    if s.buttonpress_usb = BTNPRESS_STD then
      { s with USB_state := USB_2_active, port_outputs := switchUSB USB_2_active
               buttonpress_usb := BTNPRESS_NOT, usb_changed_timestamp := now % M32 }
    else s
  | USB_2_active =>
    if s.buttonpress_usb = BTNPRESS_STD then
      { s with USB_state := USB_1_active, port_outputs := switchUSB USB_1_active
               buttonpress_usb := BTNPRESS_NOT, usb_changed_timestamp := now % M32 }
    else s
  | USB_inactive => s

/-- The save check (main.c 525-529) applied to MainState. -/
def usbSaveStep (now : Nat) (s : MainState) : MainState :=
  let r := usbSaveCheck now s.usb_changed_timestamp
  { s with usb_changed_timestamp := r.1, usb_writes := s.usb_writes + r.2 }

/-- One pass of the main loop over the projected state, with the pass's
button events for the up and down channels given as inputs. -/
def mainPass (now ADC_val_current : Nat)
    (buttonpress_up buttonpress_down : button_press_states) (s : MainState) :
    MainState :=
  let s := usbSaveStep now s
  let s := usbMachineStep now s
  let cfg : RelayConfig :=
    { ADC_upper_threshold := s.setup.ADC_upper_threshold
      ADC_lower_threshold := s.setup.ADC_lower_threshold
      relay_threshold_latchtime := s.setup.relay_threshold_latchtime }
  let s := { s with relay := relayStep cfg now ADC_val_current s.relay }
  { s with setup := setupStep buttonpress_up buttonpress_down ADC_val_current s.setup }

/-! ## delay_ms (main.c 96-100)

delay_ms computes targetMicroSec = SYSTIMER_GetTime() + ms*1000 in uint32_t
arithmetic and spins while targetMicroSec > SYSTIMER_GetTime().  With the
clock counting up from the start value, the loop exits immediately when the
target wrapped at or below the start value, and otherwise at the first
instant the clock reaches the target; delay_ms_wait gives the resulting
busy-wait length in microseconds. -/

def delay_ms_target (start ms : Nat) : Nat := (start % M32 + ms * 1000) % M32

def delay_ms_wait (start ms : Nat) : Nat :=
  if start % M32 < delay_ms_target start ms then delay_ms_target start ms - start % M32
  else 0

/-! ## Derived definitions used by the statements below -/

/-- The classification of a released press by its uint16_t duration in ms,
read off the release branch of manage_buttons (main.c 397-407): durations of
BTN_LONGEST_PRESS_DURATION and above are treated as already handled and
produce no event. -/
def classify_release (dur : Nat) (prev : button_press_states) : button_press_states :=
  if dur ≥ BTN_LONGEST_PRESS_DURATION then BTNPRESS_NOT
  else if dur ≥ BTN_LONG_PRESS_DURATION then BTNPRESS_LONG
  else if dur ≥ BTN_STD_PRESS_DURATION then BTNPRESS_STD
  else prev

/-- The two timestamp/state invariants of the relay section: the timer that
is irrelevant to the current state is clear. -/
def RelayTsInv (s : RelayState) : Prop :=
  (s.relay_state = RELAY_LOW → s.ADC_val_lower_thres_exceed_timestamp = 0) ∧
  (s.relay_state = RELAY_HIGH → s.ADC_val_upper_thres_exceed_timestamp = 0)

/-- Inductive invariant for the dwell property: while the upper exceed timer
runs, it was latched at one of the trace's poll times and every sample taken
at or after that time was at least the upper threshold (a sample strictly
below it would have cleared the timer). -/
def UpperWindowInv (cfg : RelayConfig) (tr : List (Nat × Nat)) (s : RelayState) : Prop :=
  s.ADC_val_upper_thres_exceed_timestamp ≠ 0 →
    (∃ p ∈ tr, p.1 = s.ADC_val_upper_thres_exceed_timestamp) ∧
    ∀ p ∈ tr, s.ADC_val_upper_thres_exceed_timestamp ≤ p.1 →
      u32ofInt cfg.ADC_upper_threshold ≤ p.2

/-! ## Concrete states used by counterexamples and witnesses -/

/-- The default configuration after a clean EEPROM restore: upper 3510,
lower 585, latch time 500 ms. -/
def relayCfgDefault : RelayConfig :=
  { ADC_upper_threshold := 3510, ADC_lower_threshold := 585
    relay_threshold_latchtime := 500 }

/-- An editing state for the upper threshold whose value already sits at
ADC_THRESHOLD_MAX, i.e. the clamp boundary was already hit. -/
def setupUpperClamped : SetupState :=
  { setup_state := SETUP_UPPER_TH, ADC_upper_threshold := 4095
    ADC_lower_threshold := 585, relay_threshold_latchtime := 500
    led_status_pattern := LED_FADE_UP, led_pattern_mode := LED_PATTERN_CONTINUOUS
    led_status_pattern_after_single := LED_OFF, led_number_continuous := 0
    led_number_single := 0, writes := [] }

/-- A mid-range editing state for the upper threshold. -/
def setupUpperMid : SetupState :=
  { setupUpperClamped with ADC_upper_threshold := 2000 }

/-- A running continuous blink-count(2) pattern, three phases in, with its
phase deadline reached at clock 200000. -/
def ledW : LedState :=
  { led_status_pattern := LED_NUMBER, led_status_pattern_last := LED_NUMBER
    led_pattern_mode := LED_PATTERN_CONTINUOUS, led_status_pattern_after_single := LED_OFF
    led_number_continuous := 2, led_number_single := 0
    led_fadetime := 1500, led_fadesteps := 1000
    led_pattern_state := 3, led_pattern_state_timestamp := 0
    led_pattern_state_length := LED_PULSE_SHORT, fade_duty_step := 0, duty := 77 }

/-- A main-loop state on port 1 with a pending short press of the usb-select
button and the setup menu open on the latch-time editor. -/
def mainW : MainState :=
  { USB_state := USB_1_active, usb_changed_timestamp := 0, usb_writes := 0
    port_outputs := switchUSB USB_1_active, buttonpress_usb := BTNPRESS_STD
    relay := relayInit
    setup := { setupUpperClamped with setup_state := SETUP_TIME_TH } }

/-! ## Helper lemmas: wrap-safe elapsed time -/

theorem elapsed_us_of_le (ts now : Nat) (hts : ts ≤ now) (hn : now < M32) :
    elapsed_us now ts = now - ts := by
  unfold elapsed_us
  rw [Nat.mod_eq_of_lt hn]
  have h1 : now + M32 - ts = (now - ts) + M32 := by omega
  rw [h1, Nat.add_mod_right]
  exact Nat.mod_eq_of_lt (by omega)

theorem elapsed_ms_of_le (ts now : Nat) (hts : ts ≤ now) (hn : now < M32) :
    elapsed_ms now ts = (now - ts) / 1000 := by
  unfold elapsed_ms
  rw [elapsed_us_of_le ts now hts hn]

theorem elapsed_us_mod_self (now : Nat) : elapsed_us now (now % M32) = 0 := by
  unfold elapsed_us
  rw [Nat.add_sub_cancel_left, Nat.mod_self]

theorem elapsed_ms_mod_self (now : Nat) : elapsed_ms now (now % M32) = 0 := by
  unfold elapsed_ms
  rw [elapsed_us_mod_self]

/-! ## Helper lemmas: the button classifier -/

theorem btnStep_press_start (t0 : Nat) (prev : button_press_states)
    (h0 : t0 ≠ 0) (hb : t0 < M32) :
    btnStep t0 true 0 prev = (t0, prev) := by
  unfold btnStep
  simp only [Nat.mod_eq_of_lt hb, true_and, if_pos rfl]
  have he : elapsed_ms t0 t0 = 0 := by
    have := elapsed_ms_mod_self t0
    rwa [Nat.mod_eq_of_lt hb] at this
  simp [he, BTN_LONGEST_PRESS_DURATION, h0]

theorem btnStep_hold_stay (t0 k : Nat) (prev : button_press_states)
    (h0 : t0 ≠ 0) (hb : t0 + 1000 * k < M32) (hk : k ≤ 4000) :
    btnStep (t0 + 1000 * k) true t0 prev = (t0, prev) := by
  unfold btnStep
  have he : elapsed_ms (t0 + 1000 * k) t0 = k := by
    rw [elapsed_ms_of_le t0 _ (by omega) hb]
    simp [Nat.mul_div_cancel_left]
  simp [h0, he, BTN_LONGEST_PRESS_DURATION, hk, Nat.not_lt.mpr hk]

theorem btnStep_hold_fire (t0 k : Nat) (prev : button_press_states)
    (h0 : t0 ≠ 0) (hb : t0 + 1000 * k < M32) (hk : 4000 < k) :
    btnStep (t0 + 1000 * k) true t0 prev = (TIMESTAMP_DEACTIVATED, BTNPRESS_LONGEST) := by
  unfold btnStep
  have he : elapsed_ms (t0 + 1000 * k) t0 = k := by
    rw [elapsed_ms_of_le t0 _ (by omega) hb]
    simp [Nat.mul_div_cancel_left]
  have hd : t0 ≠ TIMESTAMP_DEACTIVATED := by
    unfold TIMESTAMP_DEACTIVATED
    have : (4001 : Nat) ≤ k := hk
    have : 1000 * 4001 ≤ 1000 * k := by omega
    omega
  simp [h0, he, BTN_LONGEST_PRESS_DURATION, hd, hk]

theorem btnStep_hold_deactivated (now : Nat) (prev : button_press_states) :
    btnStep now true TIMESTAMP_DEACTIVATED prev = (TIMESTAMP_DEACTIVATED, prev) := by
  unfold btnStep
  have h0 : TIMESTAMP_DEACTIVATED ≠ 0 := by unfold TIMESTAMP_DEACTIVATED M32; omega
  simp [h0]

theorem btnStep_release (now ts : Nat) (prev : button_press_states) (h : ts ≠ 0) :
    btnStep now false ts prev = (0, classify_release (elapsed_ms now ts % M16) prev) := by
  unfold btnStep classify_release
  simp [h]

theorem runPolls_append (l1 l2 : List (Nat × Bool)) :
    ∀ (ts : Nat) (evs : List button_press_states),
      runPolls ts evs (l1 ++ l2) =
        runPolls (runPolls ts evs l1).1 (runPolls ts evs l1).2 l2 := by
  induction l1 with
  | nil => intro ts evs; simp [runPolls]
  | cons p l ih =>
    intro ts evs
    rcases p with ⟨now, pr⟩
    simp only [List.cons_append, runPolls]
    exact ih _ _

theorem runPolls_hold_stay (t0 : Nat) (h0 : t0 ≠ 0) :
    ∀ (b a : Nat) (evs : List button_press_states), 1 ≤ a → a + b ≤ 4001 →
      t0 + 1000 * (a + b) < M32 →
      runPolls t0 evs ((List.range' a b).map fun k => (t0 + 1000 * k, true)) = (t0, evs) := by
  intro b
  induction b with
  | zero => intro a evs _ _ _; simp [runPolls]
  | succ b ih =>
    intro a evs ha hab hb
    rw [List.range'_succ]
    simp only [List.map_cons, runPolls]
    rw [btnStep_hold_stay t0 a BTNPRESS_NOT h0 (by omega) (by omega)]
    simpa using ih (a + 1) evs (by omega) (by omega) (by omega)

theorem runPolls_hold_deactivated :
    ∀ (b a t0 : Nat) (evs : List button_press_states),
      runPolls TIMESTAMP_DEACTIVATED evs
        ((List.range' a b).map fun k => (t0 + 1000 * k, true)) =
        (TIMESTAMP_DEACTIVATED, evs) := by
  intro b
  induction b with
  | zero => intro a t0 evs; simp [runPolls]
  | succ b ih =>
    intro a t0 evs
    rw [List.range'_succ]
    simp only [List.map_cons, runPolls]
    rw [btnStep_hold_deactivated]
    simpa using ih (a + 1) t0 evs

theorem pressPolls_eq (t0 d : Nat) :
    pressPolls t0 d =
      ((List.range d).map fun k => (t0 + 1000 * k, true)) ++ [(t0 + 1000 * d, false)] := by
  unfold pressPolls
  rw [List.range_succ, List.map_append]
  congr 1
  · apply List.map_congr_left
    intro k hk
    simp [List.mem_range.mp hk]
  · simp

theorem pressEvents_eq_small (t0 d : Nat) (h0 : 0 < t0)
    (hb : t0 + 1000 * d + 1000 < M32) (hd : d ≤ 4001) :
    pressEvents t0 d =
      if classify_release d BTNPRESS_NOT = BTNPRESS_NOT then []
      else [classify_release d BTNPRESS_NOT] := by
  unfold pressEvents
  rw [pressPolls_eq, runPolls_append]
  cases d with
  | zero =>
    simp only [List.range_zero, List.map_nil, runPolls, Nat.mul_zero, Nat.add_zero]
    rw [show btnStep t0 false 0 BTNPRESS_NOT = (0, BTNPRESS_NOT) by unfold btnStep; simp]
    simp [runPolls, classify_release, BTN_LONGEST_PRESS_DURATION,
      BTN_LONG_PRESS_DURATION, BTN_STD_PRESS_DURATION]
  | succ e =>
    have hrun : runPolls 0 [] ((List.range (e + 1)).map fun k => (t0 + 1000 * k, true)) =
        (t0, []) := by
      rw [List.range_eq_range']
      rw [List.range'_succ 0 e 1]
      simp only [List.map_cons, runPolls, Nat.mul_zero, Nat.add_zero]
      rw [btnStep_press_start t0 BTNPRESS_NOT (by omega) (by omega)]
      simp only [if_pos rfl, List.append_nil]
      have h1 : (0 : Nat) + 1 = 1 := rfl
      rw [h1]
      exact runPolls_hold_stay t0 (by omega) e 1 [] (by omega) (by omega) (by omega)
    rw [hrun]
    simp only [runPolls]
    rw [btnStep_release _ t0 BTNPRESS_NOT (by omega)]
    have he : elapsed_ms (t0 + 1000 * (e + 1)) t0 % M16 = e + 1 := by
      rw [elapsed_ms_of_le t0 _ (by omega) (by omega)]
      have h1 : t0 + 1000 * (e + 1) - t0 = 1000 * (e + 1) := by omega
      rw [h1, Nat.mul_div_cancel_left _ (by norm_num)]
      exact Nat.mod_eq_of_lt (by unfold M16; omega)
    rw [he]
    simp [runPolls]

theorem pressEvents_eq_longest (t0 d : Nat) (h0 : 0 < t0)
    (hb : t0 + 1000 * d + 1000 < M32) (hd : 4002 ≤ d) :
    pressEvents t0 d =
      BTNPRESS_LONGEST ::
        (if (btnStep (t0 + 1000 * d) false TIMESTAMP_DEACTIVATED BTNPRESS_NOT).2 =
            BTNPRESS_NOT then []
         else [(btnStep (t0 + 1000 * d) false TIMESTAMP_DEACTIVATED BTNPRESS_NOT).2]) := by
  unfold pressEvents
  rw [pressPolls_eq, runPolls_append]
  have hrun : runPolls 0 [] ((List.range d).map fun k => (t0 + 1000 * k, true)) =
      (TIMESTAMP_DEACTIVATED, [BTNPRESS_LONGEST]) := by
    have hsplit : List.range d =
        (0 :: List.range' 1 4000) ++ (4001 :: List.range' 4002 (d - 4002)) := by
      rw [List.range_eq_range']
      have h1 : List.range' 0 4001 ++ List.range' 4001 (d - 4001) = List.range' 0 d := by
        have h := List.range'_append 0 4001 (d - 4001) 1
        simp only [Nat.one_mul, Nat.zero_add] at h
        rw [h]
        congr 1
        omega
      have e1 : List.range' 0 4001 = 0 :: List.range' 1 4000 := by
        simpa using List.range'_succ 0 4000 1
      have e2 : List.range' 4001 (d - 4001) = 4001 :: List.range' 4002 (d - 4002) := by
        have h2 : d - 4001 = (d - 4002) + 1 := by omega
        rw [h2]
        simpa using List.range'_succ 4001 (d - 4002) 1
      rw [← h1, e1, e2]
    rw [hsplit, List.map_append, runPolls_append]
    have hfirst : runPolls 0 []
        ((0 :: List.range' 1 4000).map fun k => (t0 + 1000 * k, true)) = (t0, []) := by
      have htail := runPolls_hold_stay t0 (by omega) 4000 1 [] (by omega) (by omega) (by omega)
      generalize hL : List.range' 1 4000 = L at htail ⊢
      simp only [List.map_cons, runPolls, Nat.mul_zero, Nat.add_zero]
      rw [btnStep_press_start t0 BTNPRESS_NOT (by omega) (by omega)]
      simpa using htail
    rw [hfirst]
    have htail2 := runPolls_hold_deactivated (d - 4002) 4002 t0 [BTNPRESS_LONGEST]
    generalize hL2 : List.range' 4002 (d - 4002) = L2 at htail2 ⊢
    simp only [List.map_cons, runPolls]
    rw [btnStep_hold_fire t0 4001 BTNPRESS_NOT (by omega) (by omega) (by omega)]
    simpa using htail2
  rw [hrun]
  simp [runPolls]

/-- C2: press classification by total duration, settled against the code.
For a single press of d milliseconds (1 ms polling, no clock wrap during the
press, nonzero start time): no event for d < 60, BTNPRESS_STD for
60 <= d < 1000, BTNPRESS_LONG for 1000 <= d < 4000, no event at all for
d = 4000 and d = 4001 (the release branch discards durations >= 4000 as
already handled, while the in-press trigger needs the held time to strictly
exceed 4000 ms at some poll), and for d >= 4002 the BTNPRESS_LONGEST event is
raised while the button is still held, followed by whatever event the release
pass computes from the deactivated timestamp. -/
theorem C2_press_classification (t0 d : Nat) (h0 : 0 < t0)
    (hb : t0 + 1000 * d + 1000 < M32) :
    pressEvents t0 d =
      if d < BTN_STD_PRESS_DURATION then []
      else if d < BTN_LONG_PRESS_DURATION then [BTNPRESS_STD]
      else if d < BTN_LONGEST_PRESS_DURATION then [BTNPRESS_LONG]
      else if d ≤ 4001 then []
      else BTNPRESS_LONGEST ::
        (if (btnStep (t0 + 1000 * d) false TIMESTAMP_DEACTIVATED BTNPRESS_NOT).2 =
            BTNPRESS_NOT then []
         else [(btnStep (t0 + 1000 * d) false TIMESTAMP_DEACTIVATED BTNPRESS_NOT).2]) := by
  by_cases hd : d ≤ 4001
  · rw [pressEvents_eq_small t0 d h0 hb hd]
    unfold classify_release BTN_LONGEST_PRESS_DURATION BTN_LONG_PRESS_DURATION
      BTN_STD_PRESS_DURATION
    split_ifs with h1 h2 h3 h4 h5 h6 h7 <;> first | rfl | omega | simp_all
  · rw [pressEvents_eq_longest t0 d h0 hb (by omega)]
    unfold BTN_STD_PRESS_DURATION BTN_LONG_PRESS_DURATION BTN_LONGEST_PRESS_DURATION
    split_ifs with h1 h2 h3 h4 <;> first | rfl | omega

/-- C2 counterexample: a press of exactly 4000 ms produces no event at all,
and in particular not the max-long event the claim requires for d >= 4000. -/
theorem C2_counterexample_press_4000ms :
    pressEvents 1000 4000 = [] ∧ pressEvents 1000 4000 ≠ [BTNPRESS_LONGEST] := by
  have h := pressEvents_eq_small 1000 4000 (by norm_num) (by unfold M32; norm_num) (by norm_num)
  rw [show classify_release 4000 BTNPRESS_NOT = BTNPRESS_NOT from rfl] at h
  simp only [if_pos rfl] at h
  exact ⟨h, by rw [h]; simp⟩

/-- C2 witness: a 500 ms press at clock 1000 classifies as a short press. -/
theorem C2_witness_short_press :
    0 < 1000 ∧ 1000 + 1000 * 500 + 1000 < M32 ∧
      pressEvents 1000 500 = [BTNPRESS_STD] := by
  refine ⟨by norm_num, by unfold M32; norm_num, ?_⟩
  have h := C2_press_classification 1000 500 (by norm_num) (by unfold M32; norm_num)
  simpa [BTN_STD_PRESS_DURATION, BTN_LONG_PRESS_DURATION] using h

/-- C5: after the max-long event fired during the hold, the release pass
recomputes a duration from the deactivated sentinel timestamp
(UINT32_MAX), which wraps to ((now + 1) / 1000) mod 2^16 and can land back in
the short or long band: with the press started at clock 1000, the max-long
event raised at clock 5000000, and the release observed at clock 67535999,
the channel raises a spurious BTNPRESS_LONG on release instead of no event. -/
theorem C5_spurious_event_after_longest :
    runPolls 0 [] [(1000, true), (5000000, true), (67535999, false)] =
      (0, [BTNPRESS_LONGEST, BTNPRESS_LONG]) := by decide

/-- C1: the EEPROM round-trip.  Both thresholds round-trip for in-range values
and out-of-range raw values fall back to the documented defaults, but the
latch time is validated against ADC_THRESHOLD_MAX (4095) instead of
RELAY_LATCHTIME_MAX (60000) at load: the user-settable value 60000, written by
the setup menu itself, is discarded on reload and replaced by the default
500, so the claimed round-trip fails for every latch time in (4095, 60000]. -/
theorem C1_latchtime_roundtrip_bug :
    restore_upper (eeprom_read_value (write_eeprom_buffer 3510 4)) = 3510 ∧
    restore_lower (eeprom_read_value (write_eeprom_buffer 585 4)) = 585 ∧
    restore_latchtime (eeprom_read_value (write_eeprom_buffer 4095 4)) = 4095 ∧
    restore_upper (eeprom_read_value (write_eeprom_buffer 5000 4)) = ADC_TH_UPPER_DEFAULT ∧
    restore_usb (eeprom_read_value (write_eeprom_buffer 7 4)) = USB_1_active ∧
    (60000 : Int) ≤ RELAY_LATCHTIME_MAX ∧
    restore_latchtime (eeprom_read_value (write_eeprom_buffer 60000 4)) =
      RELAY_LATCHTIME_DEFAULT := by
  decide

/-- C9: delay_ms is not wrap-safe.  Away from the wrap point it busy-waits
the requested time (1000 us for 1 ms), but when start + ms*1000 overflows
uint32_t the computed target lies at or below the start value and the wait
loop exits immediately: starting at clock 2^32 - 500, a requested 1 ms delay
waits 0 us.  The elapsed-time comparisons used by manage_buttons and the
relay engine use the subtract-then-compare form, which stays correct across
the same wrap (third conjunct). -/
theorem C9_delay_ms_wrap_bug :
    delay_ms_wait 1000 1 = 1000 ∧
    delay_ms_wait (M32 - 500) 1 = 0 ∧
    elapsed_us (M32 + 1000) (M32 - 500) = 1500 := by
  refine ⟨?_, ?_, ?_⟩ <;> decide

/-! ## Helper lemmas: the relay engine -/

theorem relayStep_preserves_tsInv (cfg : RelayConfig) (now adc : Nat) (s : RelayState)
    (h : RelayTsInv s) : RelayTsInv (relayStep cfg now adc s) := by
  obtain ⟨h1, h2⟩ := h
  rcases s with ⟨st, uts, lts⟩
  cases st <;>
    simp only [relayStep, RelayTsInv] at * <;>
    split_ifs <;>
    simp_all

theorem relayRun_tsInv (cfg : RelayConfig) (tr : List (Nat × Nat)) :
    ∀ s : RelayState, RelayTsInv s → RelayTsInv (relayRun cfg s tr) := by
  induction tr with
  | nil => intro s h; simpa [relayRun] using h
  | cons p l ih =>
    intro s h
    have hstep : relayRun cfg s (p :: l) = relayRun cfg (relayStep cfg p.1 p.2 s) l := by
      simp [relayRun]
    rw [hstep]
    exact ih _ (relayStep_preserves_tsInv cfg p.1 p.2 s h)

/-- C6: in every state the poll loop can reach from the initial state, the
upper exceed timestamp is active only in RELAY_LOW, the lower exceed
timestamp only in RELAY_HIGH, and hence at most one of the two is active. -/
theorem C6_hysteresis_timer_invariant (cfg : RelayConfig) (tr : List (Nat × Nat)) :
    ((relayRun cfg relayInit tr).ADC_val_upper_thres_exceed_timestamp ≠ 0 →
       (relayRun cfg relayInit tr).relay_state = RELAY_LOW ∧
       (relayRun cfg relayInit tr).ADC_val_lower_thres_exceed_timestamp = 0) ∧
    ((relayRun cfg relayInit tr).ADC_val_lower_thres_exceed_timestamp ≠ 0 →
       (relayRun cfg relayInit tr).relay_state = RELAY_HIGH ∧
       (relayRun cfg relayInit tr).ADC_val_upper_thres_exceed_timestamp = 0) := by
  have h := relayRun_tsInv cfg tr relayInit ⟨fun _ => rfl, fun _ => rfl⟩
  obtain ⟨h1, h2⟩ := h
  constructor
  · intro hu
    cases hs : (relayRun cfg relayInit tr).relay_state with
    | RELAY_HIGH => exact absurd (h2 hs) hu
    | RELAY_LOW => exact ⟨rfl, h1 hs⟩
  · intro hl
    cases hs : (relayRun cfg relayInit tr).relay_state with
    | RELAY_HIGH => exact ⟨rfl, h2 hs⟩
    | RELAY_LOW => exact absurd (h1 hs) hl

theorem timesSorted_concat :
    ∀ (l : List (Nat × Nat)) (x : Nat × Nat), timesSorted (l ++ [x]) = true →
      timesSorted l = true ∧ ∀ p ∈ l, p.1 < x.1 := by
  intro l
  induction l with
  | nil => intro x _; exact ⟨rfl, by simp⟩
  | cons a l ih =>
    intro x h
    cases l with
    | nil =>
      simp only [List.cons_append, List.nil_append, timesSorted, Bool.and_eq_true,
        decide_eq_true_eq] at h
      refine ⟨rfl, ?_⟩
      intro p hp
      simp only [List.mem_singleton] at hp
      subst hp
      exact h.1
    | cons b l' =>
      simp only [List.cons_append, timesSorted, Bool.and_eq_true, decide_eq_true_eq]
        at h ⊢
      obtain ⟨hab, hrest⟩ := h
      obtain ⟨hs, hlt⟩ := ih x hrest
      refine ⟨⟨hab, hs⟩, ?_⟩
      intro p hp
      rcases List.mem_cons.mp hp with hp | hp
      · subst hp
        have hbx : b.1 < x.1 := hlt b (List.mem_cons_self b l')
        omega
      · exact hlt p hp

theorem timesBounded_concat (l : List (Nat × Nat)) (x : Nat × Nat)
    (h : timesBounded (l ++ [x]) = true) :
    timesBounded l = true ∧ x.1 < M32 := by
  unfold timesBounded at h ⊢
  simp only [List.all_append, Bool.and_eq_true, List.all_cons, List.all_nil,
    decide_eq_true_eq] at h
  exact ⟨h.1, by simpa using h.2⟩

theorem allInWindowGE_eq_true (tr : List (Nat × Nat)) (lo hi th : Nat) :
    allInWindowGE tr lo hi th = true ↔
      ∀ p ∈ tr, lo ≤ p.1 → p.1 ≤ hi → th ≤ p.2 := by
  unfold allInWindowGE
  rw [List.all_eq_true]
  constructor
  · intro h p hp h1 h2
    have h3 := h p hp
    simp only [Bool.or_eq_true, Bool.not_eq_true', Bool.and_eq_false_iff,
      decide_eq_true_eq, decide_eq_false_iff_not] at h3
    rcases h3 with h3 | h3
    · rcases h3 with h3 | h3 <;> omega
    · exact h3
  · intro h p hp
    by_cases h1 : lo ≤ p.1
    · by_cases h2 : p.1 ≤ hi
      · simp [h p hp h1 h2]
      · simp [h2]
    · simp [h1]

theorem relayStep_upperWindowInv (cfg : RelayConfig) (tr : List (Nat × Nat))
    (now adc : Nat) (s : RelayState)
    (hnew : ∀ p ∈ tr, p.1 < now) (hnow : now < M32)
    (hts : RelayTsInv s) (h : UpperWindowInv cfg tr s) :
    UpperWindowInv cfg (tr ++ [(now, adc)]) (relayStep cfg now adc s) := by
  rcases s with ⟨st, uts, lts⟩
  cases st with
  | RELAY_HIGH =>
    have hz : (relayStep cfg now adc ⟨RELAY_HIGH, uts, lts⟩).ADC_val_upper_thres_exceed_timestamp =
        uts := by
      simp only [relayStep]
      split_ifs <;> rfl
    have hu : uts = 0 := hts.2 rfl
    intro hne
    rw [hz, hu] at hne
    exact absurd rfl hne
  | RELAY_LOW =>
    simp only [relayStep, Nat.mod_eq_of_lt hnow]
    split_ifs with hA hT hB hT hT
    · -- fresh latch at now, immediate transition: upper timestamp cleared
      intro hne
      exact absurd rfl hne
    · -- fresh latch at now, no transition
      intro hne
      simp only [ne_eq] at hne
      constructor
      · exact ⟨(now, adc), by simp, rfl⟩
      · intro p hp hle
        have hle' : now ≤ p.1 := hle
        rcases List.mem_append.mp hp with hp | hp
        · have := hnew p hp
          omega
        · simp only [List.mem_singleton] at hp
          subst hp
          exact Nat.le_of_lt hA.2
    · -- timer cleared by a sample below the threshold, yet transition: impossible
      exact absurd hT.1 (by simp)
    · -- timer cleared by a sample below the threshold, no transition
      intro hne
      exact absurd rfl hne
    · -- timer kept, transition: upper timestamp cleared
      intro hne
      exact absurd rfl hne
    · -- timer kept, no transition
      intro hne
      simp only at hne
      obtain ⟨⟨p0, hp0, he0⟩, hall⟩ := h hne
      constructor
      · exact ⟨p0, List.mem_append_left _ hp0, he0⟩
      · intro p hp hle
        rcases List.mem_append.mp hp with hp | hp
        · exact hall p hp hle
        · simp only [List.mem_singleton] at hp
          subst hp
          have : ¬ adc < u32ofInt cfg.ADC_upper_threshold := fun hlt => hB ⟨hne, hlt⟩
          omega

theorem relayRun_upperWindowInv (cfg : RelayConfig) :
    ∀ tr : List (Nat × Nat), timesSorted tr = true → timesBounded tr = true →
      UpperWindowInv cfg tr (relayRun cfg relayInit tr) := by
  intro tr
  induction tr using List.reverseRecOn with
  | nil =>
    intro _ _ hne
    simp [relayRun, relayInit] at hne
  | append_singleton l x ih =>
    intro hs hb
    obtain ⟨hs', hlt⟩ := timesSorted_concat l x hs
    obtain ⟨hb', hx⟩ := timesBounded_concat l x hb
    have hrun : relayRun cfg relayInit (l ++ [x]) =
        relayStep cfg x.1 x.2 (relayRun cfg relayInit l) := by
      unfold relayRun
      rw [List.foldl_append]
      rfl
    rw [hrun]
    have hinv := relayStep_upperWindowInv cfg l x.1 x.2 (relayRun cfg relayInit l)
      hlt hx (relayRun_tsInv cfg l relayInit ⟨fun _ => rfl, fun _ => rfl⟩) (ih hs' hb')
    simpa using hinv

theorem relayStep_transition_dwell (cfg : RelayConfig) (tr : List (Nat × Nat))
    (now adc : Nat) (s : RelayState)
    (hlatch : 0 ≤ cfg.relay_threshold_latchtime)
    (hnew : ∀ p ∈ tr, p.1 < now) (hnow : now < M32)
    (hinv : UpperWindowInv cfg tr s)
    (hlow : s.relay_state = RELAY_LOW)
    (hhigh : (relayStep cfg now adc s).relay_state = RELAY_HIGH) :
    ∀ p ∈ tr ++ [(now, adc)],
      now - 1000 * cfg.relay_threshold_latchtime.toNat ≤ p.1 → p.1 ≤ now →
        u32ofInt cfg.ADC_upper_threshold ≤ p.2 := by
  rcases s with ⟨st, uts, lts⟩
  simp only at hlow
  subst hlow
  simp only [relayStep, Nat.mod_eq_of_lt hnow] at hhigh
  split_ifs at hhigh with hA hT1 hB hT2 hT3
  · -- fresh latch this pass: the exceed duration is 0, below any latch time
    exfalso
    have hz : elapsed_ms now now = 0 := by
      have := elapsed_ms_mod_self now
      rwa [Nat.mod_eq_of_lt hnow] at this
    rw [hz] at hT1
    have h2 := hT1.2
    simp only [Nat.zero_mod, Nat.cast_zero] at h2
    omega
  · exact absurd hT2.1 (by simp)
  · -- timer kept from an earlier pass and mature: the dwell window is covered
    obtain ⟨huts, hdur⟩ := hT3
    have huts' : uts ≠ 0 := huts
    obtain ⟨⟨p0, hp0, he0⟩, hall⟩ := hinv huts'
    have he0' : p0.1 = uts := he0
    have hup : uts < now := by
      have := hnew p0 hp0
      omega
    have helaps : elapsed_ms now uts = (now - uts) / 1000 :=
      elapsed_ms_of_le uts now (by omega) hnow
    rw [helaps] at hdur
    have hcast : (cfg.relay_threshold_latchtime.toNat : Int) =
        cfg.relay_threshold_latchtime := Int.toNat_of_nonneg hlatch
    have h3 : (now - uts) / 1000 % M16 > cfg.relay_threshold_latchtime.toNat := by
      have h2 : (((now - uts) / 1000 % M16 : Nat) : Int) >
          (cfg.relay_threshold_latchtime.toNat : Int) := by
        rw [hcast]; exact hdur
      exact_mod_cast h2
    have h4 : (now - uts) / 1000 ≥ cfg.relay_threshold_latchtime.toNat + 1 := by
      have := Nat.mod_le ((now - uts) / 1000) M16
      omega
    have h5 : (cfg.relay_threshold_latchtime.toNat + 1) * 1000 ≤ now - uts :=
      (Nat.le_div_iff_mul_le (by norm_num)).mp h4
    intro p hp hlo hhi
    rcases List.mem_append.mp hp with hp | hp
    · have huts_le : uts ≤ p.1 := by omega
      exact hall p hp huts_le
    · simp only [List.mem_singleton] at hp
      subst hp
      have : ¬ adc < u32ofInt cfg.ADC_upper_threshold := fun hlt => hB ⟨huts', hlt⟩
      omega

/-- C3 counterexample: with the default configuration (upper threshold 3510,
latch time 500 ms), a trace that latches the timer at clock 1000 with sample
4000, then reads exactly 3510 (equal to the threshold, so neither above it
nor resetting the timer) at clock 200000, still transitions to RELAY_HIGH at
clock 502000 although the reading did not stay continuously above the
threshold through the window. -/
theorem C3_counterexample_equal_sample : ¬ relayDwellClaim := by
  intro h
  have h2 := h relayCfgDefault [(1000, 4000), (200000, 3510)] 502000 3510
    (by decide) (by decide) (by decide)
  have h3 := h2 (200000, 3510) (by simp) (by decide) (by decide)
  exact absurd h3 (by decide)

/-- C3 (amended): the relay transitions from RELAY_LOW to RELAY_HIGH only if,
for strictly more than relay_threshold_latchtime milliseconds, every ADC
sample has stayed at or above the upper threshold: the exceed timer is
latched by a sample strictly above the threshold and reset by any sample
strictly below it, while samples exactly equal to the threshold neither
latch nor reset it, so they keep an unbroken dwell running.  Stated over any
strictly increasing, uint32-bounded poll trace from the initial state. -/
theorem C3_relay_unbroken_dwell (cfg : RelayConfig) (tr : List (Nat × Nat))
    (now adc : Nat)
    (hlatch : 0 ≤ cfg.relay_threshold_latchtime)
    (hsorted : timesSorted (tr ++ [(now, adc)]) = true)
    (hbound : timesBounded (tr ++ [(now, adc)]) = true)
    (hlow : (relayRun cfg relayInit tr).relay_state = RELAY_LOW)
    (hhigh : (relayStep cfg now adc (relayRun cfg relayInit tr)).relay_state = RELAY_HIGH) :
    allInWindowGE (tr ++ [(now, adc)])
      (now - 1000 * cfg.relay_threshold_latchtime.toNat) now
      (u32ofInt cfg.ADC_upper_threshold) = true := by
  obtain ⟨hs', hlt⟩ := timesSorted_concat tr (now, adc) hsorted
  obtain ⟨hb', hx⟩ := timesBounded_concat tr (now, adc) hbound
  rw [allInWindowGE_eq_true]
  exact relayStep_transition_dwell cfg tr now adc (relayRun cfg relayInit tr)
    hlatch hlt hx (relayRun_upperWindowInv cfg tr hs' hb') hlow hhigh

/-- C3 witness: with the default configuration, a sample of 4000 at clock
1000 followed by 4000 at clock 502000 transitions the relay to RELAY_HIGH,
and indeed every sample in the 500 ms window before the transition was at or
above the threshold. -/
theorem C3_witness_dwell :
    (0 : Int) ≤ relayCfgDefault.relay_threshold_latchtime ∧
    timesSorted ([(1000, 4000)] ++ [(502000, 4000)]) = true ∧
    timesBounded ([(1000, 4000)] ++ [(502000, 4000)]) = true ∧
    (relayRun relayCfgDefault relayInit [(1000, 4000)]).relay_state = RELAY_LOW ∧
    (relayStep relayCfgDefault 502000 4000
      (relayRun relayCfgDefault relayInit [(1000, 4000)])).relay_state = RELAY_HIGH ∧
    allInWindowGE ([(1000, 4000)] ++ [(502000, 4000)])
      (502000 - 1000 * relayCfgDefault.relay_threshold_latchtime.toNat) 502000
      (u32ofInt relayCfgDefault.ADC_upper_threshold) = true := by
  refine ⟨by decide, by decide, by decide, by decide, by decide, ?_⟩
  exact C3_relay_unbroken_dwell relayCfgDefault [(1000, 4000)] 502000 4000
    (by decide) (by decide) (by decide) (by decide) (by decide)

/-- C4 counterexample: in SETUP_UPPER_TH with the edited value already sitting
at ADC_THRESHOLD_MAX (the clamp boundary was hit before), a further short up
press requests the single-shot blink-count(2) cue again, so the cue fires
once per press while the value is clamped, not once per clamp-hit. -/
theorem C4_counterexample_cue_repeats :
    setupUpperClamped.ADC_upper_threshold = ADC_THRESHOLD_MAX ∧
    setupUpperClamped.led_status_pattern = LED_FADE_UP ∧
    setupUpperClamped.led_pattern_mode = LED_PATTERN_CONTINUOUS ∧
    (setupStep BTNPRESS_STD BTNPRESS_NOT 0 setupUpperClamped).ADC_upper_threshold =
      ADC_THRESHOLD_MAX ∧
    (setupStep BTNPRESS_STD BTNPRESS_NOT 0 setupUpperClamped).led_status_pattern =
      LED_NUMBER ∧
    (setupStep BTNPRESS_STD BTNPRESS_NOT 0 setupUpperClamped).led_pattern_mode =
      LED_PATTERN_SINGLE ∧
    (setupStep BTNPRESS_STD BTNPRESS_NOT 0 setupUpperClamped).led_number_single = 2 := by
  decide

/-- C4 (amended): in each editing state a short up press adds exactly the
increment (ADC_THRESHOLD_INCREMENT = 117 for the thresholds,
RELAY_LATCHTIME_INCREMENT = 250 for the latch time), clamped at the
configured maximum, and the single-shot blink-count(2) cue is requested on
every press whose incremented value exceeds the maximum - including every
further press while the value is already clamped; presses that stay within
range leave the LED request untouched. -/
theorem C4_clamp_step_and_cue (s : SetupState) (pd : button_press_states) (adc : Nat)
    (hpd : pd ≠ BTNPRESS_LONG) :
    (s.setup_state = SETUP_UPPER_TH →
      (setupStep BTNPRESS_STD pd adc s).ADC_upper_threshold =
        (if s.ADC_upper_threshold + ADC_THRESHOLD_INCREMENT > ADC_THRESHOLD_MAX
         then ADC_THRESHOLD_MAX else s.ADC_upper_threshold + ADC_THRESHOLD_INCREMENT) ∧
      (s.ADC_upper_threshold + ADC_THRESHOLD_INCREMENT > ADC_THRESHOLD_MAX →
        (setupStep BTNPRESS_STD pd adc s).led_status_pattern = LED_NUMBER ∧
        (setupStep BTNPRESS_STD pd adc s).led_pattern_mode = LED_PATTERN_SINGLE ∧
        (setupStep BTNPRESS_STD pd adc s).led_number_single = 2 ∧
        (setupStep BTNPRESS_STD pd adc s).led_status_pattern_after_single = LED_FADE_UP) ∧
      (¬ s.ADC_upper_threshold + ADC_THRESHOLD_INCREMENT > ADC_THRESHOLD_MAX →
        (setupStep BTNPRESS_STD pd adc s).led_status_pattern = s.led_status_pattern ∧
        (setupStep BTNPRESS_STD pd adc s).led_pattern_mode = s.led_pattern_mode)) ∧
    (s.setup_state = SETUP_LOWER_TH →
      (setupStep BTNPRESS_STD pd adc s).ADC_lower_threshold =
        (if s.ADC_lower_threshold + ADC_THRESHOLD_INCREMENT > ADC_THRESHOLD_MAX
         then ADC_THRESHOLD_MAX else s.ADC_lower_threshold + ADC_THRESHOLD_INCREMENT) ∧
      (s.ADC_lower_threshold + ADC_THRESHOLD_INCREMENT > ADC_THRESHOLD_MAX →
        (setupStep BTNPRESS_STD pd adc s).led_status_pattern = LED_NUMBER ∧
        (setupStep BTNPRESS_STD pd adc s).led_pattern_mode = LED_PATTERN_SINGLE ∧
        (setupStep BTNPRESS_STD pd adc s).led_number_single = 2 ∧
        (setupStep BTNPRESS_STD pd adc s).led_status_pattern_after_single = LED_FADE_DOWN) ∧
      (¬ s.ADC_lower_threshold + ADC_THRESHOLD_INCREMENT > ADC_THRESHOLD_MAX →
        (setupStep BTNPRESS_STD pd adc s).led_status_pattern = s.led_status_pattern ∧
        (setupStep BTNPRESS_STD pd adc s).led_pattern_mode = s.led_pattern_mode)) ∧
    (s.setup_state = SETUP_TIME_TH →
      (setupStep BTNPRESS_STD pd adc s).relay_threshold_latchtime =
        (if s.relay_threshold_latchtime + RELAY_LATCHTIME_INCREMENT > RELAY_LATCHTIME_MAX
         then RELAY_LATCHTIME_MAX
         else s.relay_threshold_latchtime + RELAY_LATCHTIME_INCREMENT) ∧
      (s.relay_threshold_latchtime + RELAY_LATCHTIME_INCREMENT > RELAY_LATCHTIME_MAX →
        (setupStep BTNPRESS_STD pd adc s).led_status_pattern = LED_NUMBER ∧
        (setupStep BTNPRESS_STD pd adc s).led_pattern_mode = LED_PATTERN_SINGLE ∧
        (setupStep BTNPRESS_STD pd adc s).led_number_single = 2 ∧
        (setupStep BTNPRESS_STD pd adc s).led_status_pattern_after_single = LED_NUMBER) ∧
      (¬ s.relay_threshold_latchtime + RELAY_LATCHTIME_INCREMENT > RELAY_LATCHTIME_MAX →
        (setupStep BTNPRESS_STD pd adc s).led_status_pattern = s.led_status_pattern ∧
        (setupStep BTNPRESS_STD pd adc s).led_pattern_mode = s.led_pattern_mode)) := by
  have hstd : (BTNPRESS_STD = BTNPRESS_LONG ∨ pd = BTNPRESS_LONG) = False := by
    simp [hpd]
  refine ⟨?_, ?_, ?_⟩ <;>
    · intro hst
      simp only [setupStep, hst, hstd, if_false, if_pos rfl]
      split_ifs with hclamp <;> simp_all

/-- C4 witness: from 2000 in the upper-threshold editor, a short up press
lands on exactly 2117 and leaves the LED request untouched. -/
theorem C4_witness_upper_step :
    BTNPRESS_NOT ≠ BTNPRESS_LONG ∧
    setupUpperMid.setup_state = SETUP_UPPER_TH ∧
    (setupStep BTNPRESS_STD BTNPRESS_NOT 0 setupUpperMid).ADC_upper_threshold = 2117 ∧
    (setupStep BTNPRESS_STD BTNPRESS_NOT 0 setupUpperMid).led_status_pattern =
      setupUpperMid.led_status_pattern ∧
    (setupStep BTNPRESS_STD BTNPRESS_NOT 0 setupUpperMid).led_pattern_mode =
      setupUpperMid.led_pattern_mode := by
  have h := (C4_clamp_step_and_cue setupUpperMid BTNPRESS_NOT 0 (by decide)).1 rfl
  refine ⟨by decide, rfl, ?_, (h.2.2 (by decide)).1, (h.2.2 (by decide)).2⟩
  have h1 := h.1
  rw [if_neg (by decide)] at h1
  rw [h1]
  decide

/-- C7: shape of the blink-count pattern for every pulse count n >= 1 (with
2n below the uint16 range of the phase counter), for a pattern that is
already initialised (led_status_pattern = led_status_pattern_last =
LED_NUMBER).  Before the phase deadline a call changes nothing.  When the
deadline of phase k < 2n is reached, the renderer advances to phase k+1,
drives the LED on for odd phases and off for even phases, and arms the next
deadline at LED_PULSE_SHORT (200 ms) except that entering the final off
phase 2n in continuous mode arms LED_PULSE_LONG (1100 ms).  When phase 2n
completes (the 2n+1-st phase boundary), a continuous pattern restarts at
phase 1 while a single-shot pattern switches to the configured after-pattern
and resets the mode to continuous. -/
theorem C7_blink_count_pattern (pwmOn pwmOff : Nat) (relay_in : Bool) (now : Nat)
    (s : LedState)
    (hp : s.led_status_pattern = LED_NUMBER)
    (hl : s.led_status_pattern_last = LED_NUMBER)
    (hn2 : ledNumberOf s * 2 < M16) :
    (elapsed_ms now s.led_pattern_state_timestamp < s.led_pattern_state_length →
      manage_status_led pwmOn pwmOff relay_in now s = s) ∧
    (elapsed_ms now s.led_pattern_state_timestamp ≥ s.led_pattern_state_length →
      s.led_pattern_state < ledNumberOf s * 2 →
      manage_status_led pwmOn pwmOff relay_in now s =
        { s with
            led_pattern_state := s.led_pattern_state + 1
            duty := if (s.led_pattern_state + 1) % 2 = 1 then pwmOn else pwmOff
            led_pattern_state_length :=
              if s.led_pattern_state + 1 = ledNumberOf s * 2 ∧
                  s.led_pattern_mode = LED_PATTERN_CONTINUOUS then LED_PULSE_LONG
              else LED_PULSE_SHORT
            led_pattern_state_timestamp := now % M32 }) ∧
    (elapsed_ms now s.led_pattern_state_timestamp ≥ s.led_pattern_state_length →
      s.led_pattern_state = ledNumberOf s * 2 →
      s.led_pattern_mode = LED_PATTERN_CONTINUOUS →
      manage_status_led pwmOn pwmOff relay_in now s =
        { s with
            led_pattern_state := 1
            duty := pwmOn
            led_pattern_state_length := LED_PULSE_SHORT
            led_pattern_state_timestamp := now % M32 }) ∧
    (elapsed_ms now s.led_pattern_state_timestamp ≥ s.led_pattern_state_length →
      s.led_pattern_state = ledNumberOf s * 2 →
      s.led_pattern_mode = LED_PATTERN_SINGLE →
      manage_status_led pwmOn pwmOff relay_in now s =
        { s with
            led_status_pattern := s.led_status_pattern_after_single
            led_pattern_mode := LED_PATTERN_CONTINUOUS
            led_pattern_state := ledNumberOf s * 2 + 1
            duty := pwmOn
            led_pattern_state_length := LED_PULSE_SHORT
            led_pattern_state_timestamp := now % M32 }) := by
  obtain ⟨p, pl, mode, aft, nc, ns, ft, fs, st, ts, len, fds, dy⟩ := s
  simp only [ledNumberOf] at hp hl hn2 ⊢
  subst hp
  subst hl
  refine ⟨?_, ?_, ?_, ?_⟩
  · intro hlt
    simp [manage_status_led, Nat.not_le.mpr hlt]
  · intro hge hk
    cases mode with
    | LED_PATTERN_CONTINUOUS =>
      simp at hk hn2
      have hst : (st + 1) % M16 = st + 1 := Nat.mod_eq_of_lt (by omega)
      have hngt : ¬ st + 1 > nc * 2 := by omega
      simp [manage_status_led, hge, hst, hngt]
    | LED_PATTERN_SINGLE =>
      simp at hk hn2
      have hst : (st + 1) % M16 = st + 1 := Nat.mod_eq_of_lt (by omega)
      have hngt : ¬ st + 1 > ns * 2 := by omega
      simp [manage_status_led, hge, hst, hngt]
  · intro hge hk hmode
    subst hmode
    simp at hk hn2
    subst hk
    have hst : (nc * 2 + 1) % M16 = nc * 2 + 1 :=
      Nat.mod_eq_of_lt (by unfold M16 at hn2 ⊢; omega)
    have hne : ¬ nc * 2 + 1 = nc * 2 := by omega
    have hgt : nc * 2 + 1 > nc * 2 := by omega
    have hodd : (nc * 2 + 1) % 2 = 1 := by omega
    simp [manage_status_led, hge, hst, hne, hgt, hodd]
  · intro hge hk hmode
    subst hmode
    simp at hk hn2
    subst hk
    have hst : (ns * 2 + 1) % M16 = ns * 2 + 1 :=
      Nat.mod_eq_of_lt (by unfold M16 at hn2 ⊢; omega)
    have hgt : ns * 2 + 1 > ns * 2 := by omega
    have hodd : (ns * 2 + 1) % 2 = 1 := by omega
    simp [manage_status_led, hge, hst, hgt, hodd]

/-- C7 witness: a continuous blink-count(2) pattern three phases in, with the
phase deadline reached at clock 200000, advances to phase 4 = 2n, turns the
LED off, and arms the stretched LED_PULSE_LONG deadline. -/
theorem C7_witness_blink_step :
    ledW.led_status_pattern = LED_NUMBER ∧
    ledW.led_status_pattern_last = LED_NUMBER ∧
    ledNumberOf ledW * 2 < M16 ∧
    elapsed_ms 200000 ledW.led_pattern_state_timestamp ≥ ledW.led_pattern_state_length ∧
    ledW.led_pattern_state < ledNumberOf ledW * 2 ∧
    manage_status_led 10 990 false 200000 ledW =
      { ledW with
          led_pattern_state := 4
          duty := 990
          led_pattern_state_length := LED_PULSE_LONG
          led_pattern_state_timestamp := 200000 } := by
  refine ⟨rfl, rfl, by decide, by decide, by decide, ?_⟩
  have h := (C7_blink_count_pattern 10 990 false 200000 ledW rfl rfl
    (by decide)).2.1 (by decide) (by decide)
  rw [h]
  decide

/-! ## Helper lemmas: the USB commit delay -/

theorem commitStep_toggle (t : Nat) (ts : Nat) : (commitStep (t, true) ts).1 = t % M32 := by
  simp [commitStep]

theorem commitStep_quiet_young (now ts : Nat)
    (h : ¬ elapsed_ms now ts > USB_STORE_STATE_EEPROM_DELAY) :
    commitStep (now, false) ts = (ts, 0) := by
  unfold commitStep usbSaveCheck
  rw [if_neg (fun hc => h hc.2)]
  rfl

theorem commitRun_quiet (t : Nat) (qs : List Nat)
    (h : (qs.all fun q => decide (elapsed_ms q t ≤ USB_STORE_STATE_EEPROM_DELAY)) = true) :
    commitRun (qs.map fun q => (q, false)) t = (t, 0) := by
  induction qs with
  | nil => rfl
  | cons q qs ih =>
    simp only [List.all_cons, Bool.and_eq_true, decide_eq_true_eq] at h
    simp only [List.map_cons, commitRun]
    rw [commitStep_quiet_young q t (by omega)]
    simp [ih h.2]

/-- C8 counterexample: a toggle processed while the clock reads exactly 0
sets usb_changed_timestamp to 0, which is the no-pending-change sentinel, so
the change is never committed: the quiet pass 6000 ms later writes nothing,
refuting the claim for that toggle. -/
theorem C8_counterexample_zero_clock_toggle : ¬ usbCommitClaim := by
  intro h
  have h2 := h 0 6000000 (by decide) (by decide)
  exact absurd h2 (by decide)

/-- C8 (amended): for every toggle observed at a clock reading that is not
exactly 0 (the code reuses 0 as the no-pending-change sentinel), the toggle
pass sets (or restarts) usb_changed_timestamp to the toggle time; quiet
passes within the 5000 ms window write nothing and keep the timestamp; the
first quiet pass strictly beyond the window writes exactly once and clears
the timestamp; and with the timestamp cleared no further pass writes. -/
theorem C8_port_commit_delay (t now ts0 : Nat) (qs : List Nat) (h0 : t % M32 ≠ 0) :
    (commitStep (t, true) ts0).1 = t % M32 ∧
    ((qs.all fun q => decide (elapsed_ms q (t % M32) ≤ USB_STORE_STATE_EEPROM_DELAY)) = true →
      commitRun (qs.map fun q => (q, false)) (t % M32) = (t % M32, 0)) ∧
    (elapsed_ms now (t % M32) > USB_STORE_STATE_EEPROM_DELAY →
      commitStep (now, false) (t % M32) = (0, 1)) ∧
    commitStep (now, false) 0 = (0, 0) := by
  refine ⟨commitStep_toggle t ts0, fun h => commitRun_quiet (t % M32) qs h, ?_, ?_⟩
  · intro hg
    unfold commitStep usbSaveCheck
    rw [if_pos ⟨h0, hg⟩]
    rfl
  · unfold commitStep usbSaveCheck
    rw [if_neg (fun hc => hc.1 rfl)]
    rfl

/-- C8 witness: a toggle at clock 100 arms the timestamp; quiet passes at
1 s and 3 s write nothing; the quiet pass at 6 s writes exactly once and
clears the timestamp; with the timestamp cleared nothing further is
written. -/
theorem C8_witness_commit_delay :
    (100 : Nat) % M32 ≠ 0 ∧
    (commitStep (100, true) 55).1 = 100 % M32 ∧
    commitRun ([1000000, 3000000].map fun q => (q, false)) (100 % M32) = (100 % M32, 0) ∧
    commitStep (6000000, false) (100 % M32) = (0, 1) ∧
    commitStep (6000000, false) 0 = (0, 0) := by
  have h := C8_port_commit_delay 100 6000000 55 [1000000, 3000000] (by decide)
  exact ⟨by decide, h.1, h.2.1 (by decide), h.2.2.1 (by decide), h.2.2.2⟩

/-- C10: the usb-select event is consumed by the USB state machine on every
pass, whatever the setup state: with a short press pending on the usb
channel and the active port one of USB_1_active / USB_2_active, one main
loop pass toggles the port and drives the port-select outputs through
switchUSB, for every value of the setup fields, the relay state and the
up/down events (an open setup menu consumes only the up/down events). -/
theorem C10_usb_press_not_stolen (now adc : Nat)
    (buttonpress_up buttonpress_down : button_press_states) (s : MainState)
    (hactive : s.USB_state ≠ USB_inactive)
    (hpress : s.buttonpress_usb = BTNPRESS_STD) :
    (mainPass now adc buttonpress_up buttonpress_down s).USB_state =
      (if s.USB_state = USB_1_active then USB_2_active else USB_1_active) ∧
    (mainPass now adc buttonpress_up buttonpress_down s).port_outputs =
      switchUSB (mainPass now adc buttonpress_up buttonpress_down s).USB_state ∧
    (mainPass now adc buttonpress_up buttonpress_down s).port_outputs ≠ none ∧
    (mainPass now adc buttonpress_up buttonpress_down s).buttonpress_usb =
      BTNPRESS_NOT := by
  cases hu : s.USB_state with
  | USB_inactive => exact absurd hu hactive
  | USB_1_active =>
    simp [mainPass, usbSaveStep, usbMachineStep, hu, hpress, switchUSB]
  | USB_2_active =>
    simp [mainPass, usbSaveStep, usbMachineStep, hu, hpress, switchUSB]

/-- C10 witness: with the setup menu open on the latch-time editor and a
short usb press pending, one pass switches the port from USB_1_active to
USB_2_active and drives the outputs. -/
theorem C10_witness_usb_toggle :
    mainW.USB_state ≠ USB_inactive ∧
    mainW.buttonpress_usb = BTNPRESS_STD ∧
    mainW.setup.setup_state = SETUP_TIME_TH ∧
    (mainPass 777 2048 BTNPRESS_STD BTNPRESS_NOT mainW).USB_state = USB_2_active ∧
    (mainPass 777 2048 BTNPRESS_STD BTNPRESS_NOT mainW).port_outputs =
      switchUSB USB_2_active ∧
    (mainPass 777 2048 BTNPRESS_STD BTNPRESS_NOT mainW).port_outputs ≠ none := by
  have h := C10_usb_press_not_stolen 777 2048 BTNPRESS_STD BTNPRESS_NOT mainW
    (by decide) rfl
  refine ⟨by decide, rfl, rfl, ?_, ?_, h.2.2.1⟩
  · rw [h.1]; decide
  · rw [h.2.1, h.1]; decide
